import Mathlib

/-!
Shallow embedding of `fetch_corporate_tax_data.py` and
`simple_effective_tax_rate.py`: FRED time-series fetching, effective-tax-rate
calculation (inner join, divide, scale by 100), quarterly-to-annual
resampling by summation, and the summary statistics (decade averages,
sample standard deviation).

Dates are triples (year, month, day); numeric values are exact rationals
(the scripts use IEEE doubles; all claims about values are stated "within
floating-point tolerance", which exact rational arithmetic satisfies).
Division of pandas float series is embedded by `EV`, an extended value type
with signed infinities and NaN, so that unguarded division by a zero
denominator is represented faithfully.
-/

set_option autoImplicit false
set_option maxRecDepth 16000

namespace CorporateTax

/-- A calendar date, as produced by `pd.to_datetime` on a `YYYY-MM-DD` string. -/
structure Date where
  year : Nat
  month : Nat
  day : Nat
deriving DecidableEq, Repr

/-- Strict date order (lexicographic year, month, day), as on a pandas
`DatetimeIndex`. -/
def dateLtb (a b : Date) : Bool :=
  a.year < b.year ||
    (a.year == b.year &&
      (a.month < b.month || (a.month == b.month && a.day < b.day)))

/-- A date-indexed numeric series: the `value` column of the fetched
`pd.DataFrame` together with its `DatetimeIndex`, in index order. -/
abbrev Series := List (Date × ℚ)

/-- The date domain (index) of a date-indexed table, in order. -/
def dates {κ α : Type} (s : List (κ × α)) : List κ := s.map Prod.fst

/-- Index lookup: the value stored at key `k`, if any (first occurrence). -/
def seriesGet {κ α : Type} [DecidableEq κ] (k : κ) : List (κ × α) → Option α
  | [] => none
  | p :: rest => if p.1 = k then some p.2 else seriesGet k rest

/-- Numeric value of a list of decimal digit characters. -/
def digitsVal (ds : List Char) : Nat :=
  ds.foldl (fun a c => a * 10 + (c.toNat - 48)) 0

/-- `pd.to_numeric(..., errors=\x27coerce\x27)` on one FRED value string,
restricted to plain decimal literals (optional sign, integer part, optional
fraction): `some` the parsed rational on success, `none` (NaN, later dropped
by `dropna`) when coercion fails — in particular on the FRED missing-data
sentinel `"."`. -/
def to_numeric (s : String) : Option ℚ :=
  let cs := s.toList
  let sgn : ℚ := match cs with
    | '-' :: _ => -1
    | _ => 1
  let cs1 : List Char := match cs with
    | '-' :: r => r
    | '+' :: r => r
    | _ => cs
  let ip := (cs1.span (fun c => c.isDigit)).1
  let rest1 := (cs1.span (fun c => c.isDigit)).2
  match rest1 with
  | [] => if ip.isEmpty then none else some (sgn * digitsVal ip)
  | '.' :: rest2 =>
    let fp := (rest2.span (fun c => c.isDigit)).1
    let rest3 := (rest2.span (fun c => c.isDigit)).2
    if rest3.isEmpty && (!ip.isEmpty || !fp.isEmpty) then
      some (sgn * ((digitsVal ip : ℚ) + (digitsVal fp : ℚ) / (10 ^ fp.length)))
    else none
  | _ => none

/-- The observation-parsing pipeline shared by `fetch_series` and
`fetch_fred_series` (lines 103-111 resp. 46-51): build a frame from the
`observations` array, coerce values with `pd.to_numeric(errors=coerce)`,
drop rows whose value failed coercion (`dropna`), and index by date.
Dates arrive already parsed (`pd.to_datetime` on well-formed `YYYY-MM-DD`
strings); row order of the response is preserved. -/
def fetchParse (rows : List (Date × String)) : Series :=
  rows.filterMap (fun r => (to_numeric r.2).map (fun v => (r.1, v)))

/-- Outcome of the HTTP GET: a successfully decoded `observations` array,
or a transport/HTTP-level failure (`requests` exception or an error status
raised by `raise_for_status`). -/
inductive HttpResult where
  | success : List (Date × String) → HttpResult
  | failure : String → HttpResult
deriving DecidableEq, Repr

/-- Python truthiness of the stored credential: `not self.api_key` is true
for an absent (`None`) or empty-string key. -/
def hasKey : Option String → Bool
  | none => false
  | some s => !(s == "")

/-- The descriptive error raised by `fetch_series` when no API key is set. -/
def apiKeyError : String :=
  "API key not set. Get your free API key at: https://fred.stlouisfed.org/docs/api/api_key.html"

/-- Request-building phase of `CorporateTaxDataFetcher.fetch_series`
(lines 83-96): raises `ValueError` before any network activity when the
key is missing, otherwise returns the query parameters of the GET request
(optional date bounds omitted). -/
def fetch_series_request (apiKey : Option String) (seriesId : String) :
    Except String (List (String × String)) :=
  if hasKey apiKey then
    Except.ok [("series_id", seriesId), ("api_key", (apiKey.getD "")),
               ("file_type", "json"), ("sort_order", "asc")]
  else
    Except.error apiKeyError

/-- `CorporateTaxDataFetcher.fetch_series`: check the key, issue the GET,
and either parse the observations or catch the `RequestException`, print an
error line and return an empty frame. The result carries the lines printed
(the log) alongside the returned series; a raised exception is `error`. -/
def fetch_series (apiKey : Option String) (seriesId : String)
    (resp : HttpResult) : Except String (List String × Series) :=
  match fetch_series_request apiKey seriesId with
  | Except.error e => Except.error e
  | Except.ok _ =>
    match resp with
    | HttpResult.failure e =>
        Except.ok (["Error fetching data for " ++ seriesId ++ ": " ++ e], [])
    | HttpResult.success rows => Except.ok ([], fetchParse rows)

/-- Request-building phase of `fetch_fred_series` (simple script, lines
34-41): no credential check of any kind — the GET parameters are built and
the request issued whatever the key. -/
def fetch_fred_series_request (apiKey : Option String) (seriesId : String)
    (startDate : String) : Except String (List (String × String)) :=
  Except.ok [("series_id", seriesId), ("api_key", (apiKey.getD "")),
             ("file_type", "json"), ("observation_start", startDate),
             ("sort_order", "asc")]

/-- `fetch_fred_series` (simple script): issues the GET with no try/except,
so a transport/HTTP failure propagates as an exception; on success it runs
the shared parsing pipeline. -/
def fetch_fred_series (apiKey : Option String) (seriesId : String)
    (startDate : String) (resp : HttpResult) : Except String Series :=
  match fetch_fred_series_request apiKey seriesId startDate with
  | Except.error e => Except.error e
  | Except.ok _ =>
    match resp with
    | HttpResult.failure e => Except.error e
    | HttpResult.success rows => Except.ok (fetchParse rows)

/-- An IEEE-style extended value: the result of pandas float arithmetic.
Finite values are exact rationals; division by zero yields a signed
infinity or NaN exactly as for doubles. -/
inductive EV where
  | fin : ℚ → EV
  | posInf : EV
  | negInf : EV
  | nan : EV
deriving DecidableEq, Repr

/-- Whether an extended value is finite (neither infinite nor NaN). -/
def EV.isFinite : EV → Bool
  | EV.fin _ => true
  | _ => false

/-- Float division of two (finite, exactly representable) values, with the
IEEE zero-denominator cases: `a/0` is `+inf` for `a > 0`, `-inf` for
`a < 0`, and NaN for `0/0`. -/
def fdiv (a b : ℚ) : EV :=
  if b = 0 then
    if 0 < a then EV.posInf else if a < 0 then EV.negInf else EV.nan
  else EV.fin (a / b)

/-- Multiplication of an extended value by the scalar 100 (`* 100`):
infinities and NaN are absorbing. -/
def fmul100 : EV → EV
  | EV.fin q => EV.fin (q * 100)
  | EV.posInf => EV.posInf
  | EV.negInf => EV.negInf
  | EV.nan => EV.nan

/-- The rate series produced by the calculators: date-indexed extended
values. -/
abbrev RateSeries := List (Date × EV)

/-- The alignment performed by `pd.concat([a, b], axis=1, join=\x27inner\x27)`
on two uniquely-indexed series: keep each date of `a` that also indexes
`b`, pairing the two values; the result keeps the index order of `a` (for
sorted unique indexes this is the sorted intersection). -/
def innerJoin (a b : Series) : List (Date × (ℚ × ℚ)) :=
  a.filterMap (fun p => (seriesGet p.1 b).map (fun vb => (p.1, (p.2, vb))))

/-- `calculate_effective_rate` (simple script, lines 55-64): align the two
series on exact date equality, then `taxes / profits * 100` elementwise —
the division is unguarded. -/
def calculate_effective_rate (taxReceipts profitsBeforeTax : Series) :
    RateSeries :=
  (innerJoin taxReceipts profitsBeforeTax).map
    (fun r => (r.1, fmul100 (fdiv r.2.1 r.2.2)))

/-- `CorporateTaxDataFetcher.calculate_effective_tax_rate` (lines 117-140):
identical logic to `calculate_effective_rate` (same concat/join and the
same `tax_receipts / profits_before_tax * 100`), differing only in column
labels. -/
def calculate_effective_tax_rate (taxReceipts profitsBeforeTax : Series) :
    RateSeries :=
  calculate_effective_rate taxReceipts profitsBeforeTax

/-- The years carried by the index of a series. -/
def yearsOf (s : Series) : List Nat := s.map (fun p => p.1.year)

/-- First year of the resampling span: the minimum year of the index. -/
def loYear (s : Series) : Nat :=
  match yearsOf s with
  | [] => 0
  | y :: ys => ys.foldl Nat.min y

/-- Last year of the resampling span: the maximum year of the index. -/
def hiYear (s : Series) : Nat :=
  match yearsOf s with
  | [] => 0
  | y :: ys => ys.foldl Nat.max y

/-- `.resample(\x27A\x27).sum()` (line 198-199): annual year-end bins cover
every calendar year from the first to the last indexed year inclusive —
also years with no observations, whose empty bins sum to 0 — and each bin,
labelled December 31, receives the sum of the values dated in that year.
An empty series resamples to an empty series. -/
def resample_A_sum (s : Series) : Series :=
  if s.isEmpty then []
  else
    (List.range' (loYear s) (hiYear s + 1 - loYear s)).map
      (fun yr =>
        (Date.mk yr 12 31,
          ((s.filter (fun p => p.1.year == yr)).map Prod.snd).sum))

/-- Arithmetic mean, as pandas `.mean()` on finite values. -/
def mean (xs : List ℚ) : ℚ := xs.sum / xs.length

/-- The decade bucket bases iterated by `range(1950, 2030, 10)`
(line 303): 1950, 1960, ..., 2020. -/
def decadesList : List Nat := List.range' 1950 8 10

/-- Membership of an observation in the decade bucket based at `dec`:
`(rate_q.index.year >= decade) & (rate_q.index.year < decade + 10)`. -/
def inDecade (dec : Nat) (p : Date × ℚ) : Bool :=
  decide (dec ≤ p.1.year) && decide (p.1.year < dec + 10)

/-- The decade-averages part of `summary_statistics` (lines 301-306): for
each ten-year bucket of `decadesList`, if the slice of the series falling
in the bucket
is non-empty report its mean, otherwise report nothing for that bucket. -/
def decadeAverages (s : Series) : List (Nat × ℚ) :=
  decadesList.filterMap (fun dec =>
    if (s.filter (inDecade dec)).isEmpty then none
    else some (dec, mean ((s.filter (inDecade dec)).map Prod.snd)))

/-- The variance under pandas `.std()` with its default `ddof=1`
(lines 297 and 313): squared deviations from the mean, divided by `n - 1`.
The reported standard deviation is the square root of this quantity, and
the square root is strictly monotone, so the N-1-denominator question is
decided here. -/
def sampleVar (xs : List ℚ) : ℚ :=
  ((xs.map (fun x => (x - mean xs) ^ 2)).sum) / (xs.length - 1)

/-- The same statistic with a population (N) denominator — the alternative
the specification rules out; used only to witness that the two differ. -/
def popVar (xs : List ℚ) : ℚ :=
  ((xs.map (fun x => (x - mean xs) ^ 2)).sum) / xs.length

/-- Concrete tax-receipt series of the specification example:
dates 2020-01-01 and 2020-04-01, both valued 100. -/
def taxEx : Series := [(Date.mk 2020 1 1, 100), (Date.mk 2020 4 1, 100)]

/-- Concrete profit series of the specification example: the single date
2020-01-01 valued 1000. -/
def profitEx : Series := [(Date.mk 2020 1 1, 1000)]

/-- Concrete API response rows of the specification example: a parseable
value and the missing-data sentinel. -/
def obsEx : List (Date × String) :=
  [(Date.mk 2020 1 1, "5.0"), (Date.mk 2020 4 1, ".")]

/-- Concrete quarterly series with observations in 1950 and 1952 but none
in 1951, exhibiting the interior empty resampling bin. -/
def gapEx : Series := [(Date.mk 1950 3 31, 2), (Date.mk 1952 6 30, 3)]

/-- Concrete rate series spanning 1950-1959 with constant value 40. -/
def fortiesEx : Series :=
  (List.range' 1950 10).map (fun y => (Date.mk y 12 31, (40 : ℚ)))

/-- Concrete value list distinguishing the N-1 from the N denominator. -/
def stdEx : List ℚ := [1, 2, 3]

/-- Concrete shared date for the zero-denominator example. -/
def zeroDenomDate : Date := Date.mk 2020 1 1

/-- Numerator series for the zero-denominator example. -/
def zeroDenomTax : Series := [(zeroDenomDate, 5)]

/-- Denominator series, valued 0, for the zero-denominator example. -/
def zeroDenomProfit : Series := [(zeroDenomDate, 0)]

theorem seriesGet_isSome_iff {κ α : Type} [DecidableEq κ] (k : κ) :
    ∀ s : List (κ × α), (seriesGet k s).isSome = true ↔ k ∈ dates s
  | [] => by simp [seriesGet, dates]
  | p :: rest => by
    by_cases h : p.1 = k
    · subst h
      simp [seriesGet, dates]
    · simp only [seriesGet, if_neg h, dates, List.map_cons, List.mem_cons,
        seriesGet_isSome_iff k rest]
      constructor
      · exact fun hm => Or.inr hm
      · rintro (rfl | hm)
        · exact absurd rfl h
        · exact hm

theorem seriesGet_eq_none_iff {κ α : Type} [DecidableEq κ] (k : κ)
    (s : List (κ × α)) : seriesGet k s = none ↔ k ∉ dates s := by
  rw [← seriesGet_isSome_iff k s]
  cases seriesGet k s <;> simp

theorem seriesGet_map_snd {κ α β : Type} [DecidableEq κ] (g : α → β) (k : κ) :
    ∀ s : List (κ × α),
      seriesGet k (s.map (fun r => (r.1, g r.2))) = (seriesGet k s).map g
  | [] => rfl
  | p :: rest => by
    by_cases h : p.1 = k <;>
      simp [seriesGet, h, seriesGet_map_snd g k rest]

theorem dates_innerJoin (a b : Series) :
    dates (innerJoin a b) =
      (dates a).filter (fun d => (seriesGet d b).isSome) := by
  induction a with
  | nil => rfl
  | cons p t ih =>
    simp only [innerJoin, List.filterMap_cons, dates, List.map_cons,
      List.filter_cons] at *
    cases h : seriesGet p.1 b with
    | none => simp [h, ih]
    | some vb => simp [h, ih]

theorem dates_calculate_effective_rate (a b : Series) :
    dates (calculate_effective_rate a b) = dates (innerJoin a b) := by
  simp [calculate_effective_rate, dates, List.map_map]

theorem seriesGet_innerJoin {a b : Series} {d : Date} {va vb : ℚ}
    (ha : seriesGet d a = some va) (hb : seriesGet d b = some vb) :
    seriesGet d (innerJoin a b) = some (va, vb) := by
  induction a with
  | nil => simp [seriesGet] at ha
  | cons p t ih =>
    rw [seriesGet] at ha
    by_cases h : p.1 = d
    · rw [if_pos h] at ha
      injection ha with ha
      subst ha
      subst h
      simp [innerJoin, List.filterMap_cons, hb, seriesGet]
    · rw [if_neg h] at ha
      have hrec := ih ha
      simp only [innerJoin, List.filterMap_cons] at hrec ⊢
      cases hpb : seriesGet p.1 b with
      | none => simpa using hrec
      | some w => simpa [seriesGet, h] using hrec

theorem seriesGet_calculate_effective_rate {a b : Series} {d : Date}
    {va vb : ℚ} (ha : seriesGet d a = some va)
    (hb : seriesGet d b = some vb) :
    seriesGet d (calculate_effective_rate a b) =
      some (fmul100 (fdiv va vb)) := by
  have hj := seriesGet_innerJoin ha hb
  have hm := seriesGet_map_snd
    (fun q : ℚ × ℚ => fmul100 (fdiv q.1 q.2)) d (innerJoin a b)
  rw [calculate_effective_rate]
  rw [hm, hj]
  rfl

theorem nodup_subset_length {α : Type} [DecidableEq α] :
    ∀ {l₁ l₂ : List α}, l₁.Nodup → (∀ x ∈ l₁, x ∈ l₂) →
      l₁.length ≤ l₂.length
  | [], _, _, _ => Nat.zero_le _
  | a :: t, l₂, hn, hsub => by
    have ha : a ∈ l₂ := hsub a (List.mem_cons_self a t)
    have hna : a ∉ t := (List.nodup_cons.mp hn).1
    have htn : t.Nodup := (List.nodup_cons.mp hn).2
    have hsub2 : ∀ x ∈ t, x ∈ l₂.erase a := by
      intro x hx
      exact (List.mem_erase_of_ne (fun hxa => hna (by rwa [hxa] at hx))).mpr
        (hsub x (List.mem_cons_of_mem a hx))
    have hrec := nodup_subset_length htn hsub2
    have hl : (l₂.erase a).length = l₂.length - 1 :=
      List.length_erase_of_mem ha
    have hpos : 1 ≤ l₂.length := List.length_pos.mpr
      (fun he => by simp [he] at ha)
    simp only [List.length_cons]
    omega

theorem dateLtb_ne {x y : Date} (h : dateLtb x y = true) : x ≠ y := by
  rintro rfl
  simp [dateLtb] at h

theorem dates_fetchParse_sublist :
    ∀ rows : List (Date × String),
      List.Sublist (dates (fetchParse rows)) (dates rows)
  | [] => List.Sublist.refl _
  | r :: t => by
    simp only [fetchParse, List.filterMap_cons, dates, List.map_cons]
    cases h : to_numeric r.2 with
    | none =>
      simpa [fetchParse, dates] using
        List.Sublist.cons r.1 (dates_fetchParse_sublist t)
    | some v =>
      simpa [fetchParse, dates] using
        List.Sublist.cons₂ r.1 (dates_fetchParse_sublist t)

theorem dates_rate_sublist (a b : Series) :
    List.Sublist (dates (calculate_effective_rate a b)) (dates a) := by
  rw [dates_calculate_effective_rate, dates_innerJoin]
  exact List.filter_sublist _

theorem foldl_min_le : ∀ (l : List Nat) (y : Nat), l.foldl Nat.min y ≤ y
  | [], _ => Nat.le_refl _
  | a :: t, y =>
    Nat.le_trans (foldl_min_le t (Nat.min y a)) (Nat.min_le_left y a)

theorem le_foldl_max : ∀ (l : List Nat) (y : Nat), y ≤ l.foldl Nat.max y
  | [], _ => Nat.le_refl _
  | a :: t, y =>
    Nat.le_trans (Nat.le_max_left y a) (le_foldl_max t (Nat.max y a))

theorem loYear_le_hiYear (s : Series) (hs : s ≠ []) :
    loYear s ≤ hiYear s := by
  cases s with
  | nil => exact absurd rfl hs
  | cons p t =>
    simp only [loYear, hiYear, yearsOf, List.map_cons]
    exact Nat.le_trans (foldl_min_le _ _) (le_foldl_max _ _)

theorem seriesGet_yearMap {β : Type} (g : Nat → β) :
    ∀ (n lo yr : Nat), lo ≤ yr → yr < lo + n →
      seriesGet (Date.mk yr 12 31)
        ((List.range' lo n).map (fun y => (Date.mk y 12 31, g y))) =
        some (g yr)
  | 0, lo, yr, h1, h2 => absurd h2 (by omega)
  | n + 1, lo, yr, h1, h2 => by
    rw [List.range'_succ, List.map_cons]
    by_cases h : lo = yr
    · subst h
      simp [seriesGet]
    · rw [seriesGet, if_neg (by simp [Date.mk.injEq]; omega)]
      exact seriesGet_yearMap g n (lo + 1) yr (by omega) (by omega)

theorem yearMap_not_mem {β : Type} (g : Nat → β) (n lo yr : Nat)
    (h : yr < lo ∨ lo + n ≤ yr) :
    Date.mk yr 12 31 ∉
      dates ((List.range' lo n).map (fun y => (Date.mk y 12 31, g y))) := by
  intro hm
  simp only [dates, List.map_map, List.mem_map, Function.comp] at hm
  obtain ⟨y, hy, he⟩ := hm
  have hyy : y = yr := by
    simpa [Date.mk.injEq] using he
  subst hyy
  rw [List.mem_range'_1] at hy
  omega

theorem yearMap_nodup {β : Type} (g : Nat → β) (n lo : Nat) :
    (dates ((List.range' lo n).map
      (fun y => (Date.mk y 12 31, g y)))).Nodup := by
  simp only [dates, List.map_map]
  apply List.Nodup.map
  · intro a b hab
    simpa [Function.comp, Date.mk.injEq] using hab
  · exact List.nodup_range' lo n

theorem seriesGet_filterMap_of_not_mem {β : Type}
    (f : Nat → Option (Nat × β)) (hf : ∀ d x, f d = some x → x.1 = d) :
    ∀ (l : List Nat) (dec : Nat), dec ∉ l →
      seriesGet dec (l.filterMap f) = none
  | [], _, _ => rfl
  | d :: t, dec, hnm => by
    have hd : d ≠ dec := fun h => hnm (h ▸ List.mem_cons_self d t)
    have ht : dec ∉ t := fun h => hnm (List.mem_cons_of_mem d h)
    rw [List.filterMap_cons]
    cases hfd : f d with
    | none => exact seriesGet_filterMap_of_not_mem f hf t dec ht
    | some x =>
      rw [seriesGet, if_neg (by rw [hf d x hfd]; exact hd)]
      exact seriesGet_filterMap_of_not_mem f hf t dec ht

theorem seriesGet_filterMap_of_mem {β : Type}
    (f : Nat → Option (Nat × β)) (hf : ∀ d x, f d = some x → x.1 = d) :
    ∀ (l : List Nat) (dec : Nat), l.Nodup → dec ∈ l →
      seriesGet dec (l.filterMap f) = (f dec).map Prod.snd
  | [], dec, _, hm => absurd hm (List.not_mem_nil dec)
  | d :: t, dec, hn, hm => by
    have hna : d ∉ t := (List.nodup_cons.mp hn).1
    have htn : t.Nodup := (List.nodup_cons.mp hn).2
    rw [List.filterMap_cons]
    by_cases h : d = dec
    · subst h
      cases hfd : f d with
      | none =>
        rw [seriesGet_filterMap_of_not_mem f hf t d hna]
        rfl
      | some x =>
        rw [seriesGet, if_pos (hf d x hfd)]
        rfl
    · have htm : dec ∈ t := by
        rcases List.mem_cons.mp hm with h1 | h1
        · exact absurd h1.symm h
        · exact h1
      cases hfd : f d with
      | none => exact seriesGet_filterMap_of_mem f hf t dec htn htm
      | some x =>
        rw [seriesGet, if_neg (by rw [hf d x hfd]; exact h)]
        exact seriesGet_filterMap_of_mem f hf t dec htn htm

/-- Claim C1: for every two date-indexed series, the rate series returned
by the rate calculation (`calculate_effective_tax_rate`, identical to
`calculate_effective_rate`) has a date domain equal to the set
intersection of the two input domains, and — the inputs being date-unique
series — its length never exceeds `min |A| |B|`. -/
theorem rate_domain_is_intersection (a b : Series) :
    calculate_effective_tax_rate a b = calculate_effective_rate a b ∧
    (∀ d : Date,
      d ∈ dates (calculate_effective_rate a b) ↔
        d ∈ dates a ∧ d ∈ dates b) ∧
    ((dates a).Nodup →
      (calculate_effective_rate a b).length ≤ min a.length b.length) := by
  refine ⟨rfl, ?_, ?_⟩
  · intro d
    rw [dates_calculate_effective_rate, dates_innerJoin, List.mem_filter]
    constructor
    · rintro ⟨h1, h2⟩
      exact ⟨h1, (seriesGet_isSome_iff d b).mp (by simpa using h2)⟩
    · rintro ⟨h1, h2⟩
      exact ⟨h1, by simpa using (seriesGet_isSome_iff d b).mpr h2⟩
  · intro hnd
    have hlen : (calculate_effective_rate a b).length
        = (dates (calculate_effective_rate a b)).length := by
      simp [dates]
    have heq := dates_calculate_effective_rate a b
    rw [dates_innerJoin] at heq
    apply le_min
    · rw [hlen, heq]
      calc ((dates a).filter (fun d => (seriesGet d b).isSome)).length
          ≤ (dates a).length := List.length_filter_le _ _
        _ = a.length := by simp [dates]
    · rw [hlen, heq]
      have hnd2 :
          ((dates a).filter (fun d => (seriesGet d b).isSome)).Nodup :=
        hnd.filter _
      have hsub : ∀ x ∈ (dates a).filter
          (fun d => (seriesGet d b).isSome), x ∈ dates b := by
        intro x hx
        exact (seriesGet_isSome_iff x b).mp
          (by simpa using (List.mem_filter.mp hx).2)
      calc ((dates a).filter (fun d => (seriesGet d b).isSome)).length
          ≤ (dates b).length := nodup_subset_length hnd2 hsub
        _ = b.length := by simp [dates]

/-- Witness for C1 at the specification example series. -/
theorem rate_domain_is_intersection_witness :
    (dates taxEx).Nodup ∧
      (calculate_effective_rate taxEx profitEx).length ≤
        min taxEx.length profitEx.length :=
  ⟨by decide, (rate_domain_is_intersection taxEx profitEx).2.2 (by decide)⟩

/-- Claim C2: at every date shared by the two input series whose
denominator value is nonzero (so that the quotient is spoken of), the rate
series value is exactly `100 * A[d] / B[d]` — exact in rational
arithmetic, hence within floating-point tolerance. -/
theorem rate_value_at_shared_date (a b : Series) (d : Date) (va vb : ℚ)
    (ha : seriesGet d a = some va) (hb : seriesGet d b = some vb)
    (hvb : vb ≠ 0) :
    seriesGet d (calculate_effective_rate a b) =
      some (EV.fin (100 * va / vb)) := by
  rw [seriesGet_calculate_effective_rate ha hb]
  have harith : va / vb * 100 = 100 * va / vb := by ring
  rw [fdiv, if_neg hvb]
  simp [fmul100, harith]

/-- Witness for C2 at the specification example series: 100 / 1000 scaled
by 100. -/
theorem rate_value_at_shared_date_witness :
    seriesGet (Date.mk 2020 1 1)
        (calculate_effective_rate taxEx profitEx) =
      some (EV.fin (100 * 100 / 1000)) :=
  rate_value_at_shared_date taxEx profitEx (Date.mk 2020 1 1) 100 1000
    (by decide) (by decide) (by decide)

/-- Claim C10: a shared date is neither excluded nor an error when the
denominator is zero or negative — it stays in the rate domain — and with a
zero denominator the unguarded division produces a non-finite (infinite
or NaN) value. -/
theorem rate_zero_denominator_unguarded (a b : Series) (d : Date)
    (va vb : ℚ) (ha : seriesGet d a = some va)
    (hb : seriesGet d b = some vb) :
    d ∈ dates (calculate_effective_rate a b) ∧
    (vb = 0 → ∃ v : EV,
      seriesGet d (calculate_effective_rate a b) = some v ∧
        v.isFinite = false) := by
  have hg := seriesGet_calculate_effective_rate ha hb
  constructor
  · have hs : (seriesGet d (calculate_effective_rate a b)).isSome = true := by
      rw [hg]
      rfl
    exact (seriesGet_isSome_iff d _).mp hs
  · intro hvb
    refine ⟨fmul100 (fdiv va vb), hg, ?_⟩
    subst hvb
    rcases lt_trichotomy va 0 with h | h | h
    · rw [fdiv, if_pos rfl, if_neg (by linarith), if_pos h]
      rfl
    · subst h
      rw [fdiv, if_pos rfl, if_neg (lt_irrefl 0), if_neg (lt_irrefl 0)]
      rfl
    · rw [fdiv, if_pos rfl, if_pos h]
      rfl

/-- Witness for C10: a one-point numerator over a zero denominator keeps
its date and yields a non-finite value. -/
theorem rate_zero_denominator_unguarded_witness :
    zeroDenomDate ∈
      dates (calculate_effective_rate zeroDenomTax zeroDenomProfit) ∧
    ∃ v : EV,
      seriesGet zeroDenomDate
          (calculate_effective_rate zeroDenomTax zeroDenomProfit) =
        some v ∧ v.isFinite = false :=
  ⟨(rate_zero_denominator_unguarded zeroDenomTax zeroDenomProfit
      zeroDenomDate 5 0 (by decide) (by decide)).1,
   (rate_zero_denominator_unguarded zeroDenomTax zeroDenomProfit
      zeroDenomDate 5 0 (by decide) (by decide)).2 rfl⟩

/-- Claim C4 counterexample: in `fetch_fred_series` a transport/HTTP
failure is propagated as an exception — not logged and converted to an
empty series — so the claim is false of that fetcher. -/
theorem fetch_fred_series_propagates_failure :
    fetch_fred_series (some "key") "B075RC1Q027SBEA" "1950-01-01"
        (HttpResult.failure "connection timed out") =
      Except.error "connection timed out" := rfl

/-- Claim C4 (amended): in `CorporateTaxDataFetcher.fetch_series` — the
key being set — a transport or HTTP failure is caught, an error line is
logged and an empty series is returned rather than the exception
propagating; the simple-script `fetch_fred_series` instead propagates the
failure. -/
theorem fetch_series_failure_logged_empty (k : Option String)
    (sid e : String) (hk : hasKey k = true) :
    fetch_series k sid (HttpResult.failure e) =
      Except.ok (["Error fetching data for " ++ sid ++ ": " ++ e], []) ∧
    fetch_fred_series k sid "1950-01-01" (HttpResult.failure e) =
      Except.error e := by
  constructor
  · rw [fetch_series, fetch_series_request, if_pos hk]
  · rfl

/-- Witness for C4 (amended) at a concrete key, series and failure. -/
theorem fetch_series_failure_logged_empty_witness :
    fetch_series (some "demo") "FCTAX" (HttpResult.failure "HTTP 500") =
      Except.ok
        (["Error fetching data for " ++ "FCTAX" ++ ": " ++ "HTTP 500"],
          []) ∧
    fetch_fred_series (some "demo") "FCTAX" "1950-01-01"
        (HttpResult.failure "HTTP 500") =
      Except.error "HTTP 500" :=
  fetch_series_failure_logged_empty (some "demo") "FCTAX" "HTTP 500"
    (by decide)

/-- Claim C5 counterexample: `fetch_fred_series` performs no credential
check at all — with no key supplied, the GET parameters are still built
and the request issued (with an empty key) instead of failing fast before
any network call. -/
theorem fetch_fred_series_no_key_check :
    fetch_fred_series_request none "B075RC1Q027SBEA" "1950-01-01" =
      Except.ok
        [("series_id", "B075RC1Q027SBEA"), ("api_key", ""),
         ("file_type", "json"), ("observation_start", "1950-01-01"),
         ("sort_order", "asc")] := rfl

/-- Claim C5 (amended): `CorporateTaxDataFetcher.fetch_series` with a
missing (or empty, hence falsy) key fails fast with the descriptive
`ValueError` before the request parameters are even built — whatever the
response would have been — while the simple-script `fetch_fred_series`
checks nothing and issues the request regardless. -/
theorem fetch_series_fails_fast_without_key (k : Option String)
    (sid : String) (resp : HttpResult) (hk : hasKey k = false) :
    fetch_series_request k sid = Except.error apiKeyError ∧
    fetch_series k sid resp = Except.error apiKeyError ∧
    ∃ ps, fetch_fred_series_request k sid "1950-01-01" = Except.ok ps := by
  have h1 : fetch_series_request k sid = Except.error apiKeyError := by
    simp [fetch_series_request, hk]
  exact ⟨h1, by simp [fetch_series, h1], ⟨_, rfl⟩⟩

/-- Witness for C5 (amended) at an absent key. -/
theorem fetch_series_fails_fast_without_key_witness :
    fetch_series_request none "FCTAX" = Except.error apiKeyError ∧
    fetch_series none "FCTAX" (HttpResult.success []) =
      Except.error apiKeyError ∧
    ∃ ps, fetch_fred_series_request none "FCTAX" "1950-01-01" =
      Except.ok ps :=
  fetch_series_fails_fast_without_key none "FCTAX"
    (HttpResult.success []) (by decide)

/-- Claim C6: every observation surviving the parse pipeline comes from a
response row whose value string coerced successfully — rows failing
coercion, in particular the missing-data sentinel, are dropped — and on
the specification example response exactly the one parseable observation
survives. -/
theorem fetchParse_drops_unparseable :
    (∀ (rows : List (Date × String)) (d : Date) (v : ℚ),
      (d, v) ∈ fetchParse rows →
        ∃ str : String, (d, str) ∈ rows ∧ to_numeric str = some v) ∧
    fetchParse obsEx = [(Date.mk 2020 1 1, 5)] := by
  constructor
  · intro rows d v hm
    induction rows with
    | nil => exact absurd hm (List.not_mem_nil _)
    | cons r t ih =>
      rw [fetchParse, List.filterMap_cons] at hm
      cases h : to_numeric r.2 with
      | none =>
        rw [h] at hm
        obtain ⟨str, hs1, hs2⟩ := ih hm
        exact ⟨str, List.mem_cons_of_mem r hs1, hs2⟩
      | some w =>
        rw [h] at hm
        have hm2 : (d, v) ∈ (r.1, w) :: List.filterMap
            (fun r => (to_numeric r.2).map (fun v => (r.1, v))) t := hm
        rcases List.mem_cons.mp hm2 with he | ht
        · have hd : d = r.1 := congrArg Prod.fst he
          have hv : v = w := congrArg Prod.snd he
          refine ⟨r.2, ?_, by rw [h, hv]⟩
          rw [hd]
          exact List.mem_cons_self r t
        · obtain ⟨str, hs1, hs2⟩ := ih ht
          exact ⟨str, List.mem_cons_of_mem r hs1, hs2⟩
  · with_unfolding_all rfl

/-- Witness for C6: the surviving observation of the example response
traces back to the parseable row. -/
theorem fetchParse_drops_unparseable_witness :
    ∃ str : String, (Date.mk 2020 1 1, str) ∈ obsEx ∧
      to_numeric str = some 5 :=
  fetchParse_drops_unparseable.1 obsEx (Date.mk 2020 1 1) 5
    (by rw [fetchParse_drops_unparseable.2]; exact List.mem_cons_self _ _)

/-- Claim C3 counterexample: resampling the quarterly series with
observations in 1950 and 1952 but none in 1951 nevertheless produces an
annual observation dated in 1951 — valued 0, the sum of the empty bin —
because the year-end bins cover the whole spanned range; so a year with no
quarterly observations does not always produce no annual observation. -/
theorem resample_emits_empty_interior_year :
    (∀ p ∈ gapEx, p.1.year ≠ 1951) ∧
    Date.mk 1951 12 31 ∈ dates (resample_A_sum gapEx) ∧
    seriesGet (Date.mk 1951 12 31) (resample_A_sum gapEx) = some 0 := by
  have hget : seriesGet (Date.mk 1951 12 31) (resample_A_sum gapEx) =
      some 0 := by
    with_unfolding_all rfl
  refine ⟨by decide, ?_, hget⟩
  refine (seriesGet_isSome_iff _ _).mp ?_
  rw [hget]
  rfl

/-- Claim C3 (amended): resampling a non-empty quarterly series to annual
by summation produces exactly one observation, dated December 31, for each
calendar year from the first through the last observed year inclusive,
valued at the sum of the quarterly observations falling in that year (0
for an in-range year with no observations); years outside that range
produce no annual observation. -/
theorem resample_annual_sum_spec (s : Series) (hs : s ≠ []) (yr : Nat) :
    (loYear s ≤ yr → yr ≤ hiYear s →
      seriesGet (Date.mk yr 12 31) (resample_A_sum s) =
        some (((s.filter (fun p => p.1.year == yr)).map Prod.snd).sum)) ∧
    (yr < loYear s ∨ hiYear s < yr →
      Date.mk yr 12 31 ∉ dates (resample_A_sum s)) ∧
    (dates (resample_A_sum s)).Nodup := by
  have hne : s.isEmpty = false := by
    cases s with
    | nil => exact absurd rfl hs
    | cons p t => rfl
  have hlh := loYear_le_hiYear s hs
  rw [resample_A_sum, if_neg (by rw [hne]; exact Bool.false_ne_true)]
  refine ⟨?_, ?_, ?_⟩
  · intro h1 h2
    exact seriesGet_yearMap _ _ _ _ h1 (by omega)
  · intro h
    exact yearMap_not_mem _ _ _ _ (by omega)
  · exact yearMap_nodup _ _ _

/-- Witness for C3 (amended): the empty interior year 1951 of the gap
series receives the empty sum. -/
theorem resample_annual_sum_spec_witness :
    seriesGet (Date.mk 1951 12 31) (resample_A_sum gapEx) =
      some (((gapEx.filter (fun p => p.1.year == 1951)).map Prod.snd).sum) :=
  (resample_annual_sum_spec gapEx (by decide) 1951).1 (by decide) (by decide)

/-- Claim C7: the decade-average statistic buckets observations by
calendar year into the fixed ten-year ranges based at 1950, 1960, ...,
2020, reports the arithmetic mean of each non-empty bucket and reports
nothing for an empty bucket; on a rate series spanning 1950-1959 with
constant value 40 it reports exactly one entry, 40 for the 1950s
bucket. -/
theorem decade_averages_spec (s : Series) (dec : Nat)
    (hdec : dec ∈ decadesList) :
    ((s.filter (inDecade dec)).isEmpty = true →
      seriesGet dec (decadeAverages s) = none) ∧
    ((s.filter (inDecade dec)).isEmpty = false →
      seriesGet dec (decadeAverages s) =
        some (mean ((s.filter (inDecade dec)).map Prod.snd))) ∧
    decadeAverages fortiesEx = [(1950, 40)] := by
  have hnd : decadesList.Nodup := by decide
  have hf : ∀ (d : Nat) (x : Nat × ℚ),
      (if (s.filter (inDecade d)).isEmpty then none
       else some (d, mean ((s.filter (inDecade d)).map Prod.snd))) =
        some x → x.1 = d := by
    intro d x hx
    by_cases hemp : (s.filter (inDecade d)).isEmpty
    · rw [if_pos hemp] at hx
      exact absurd hx (by simp)
    · rw [if_neg hemp] at hx
      injection hx with hx
      rw [← hx]
  have hmain := seriesGet_filterMap_of_mem _ hf decadesList dec hnd hdec
  refine ⟨?_, ?_, ?_⟩
  · intro hemp
    rw [decadeAverages, hmain, if_pos hemp]
    rfl
  · intro hemp
    rw [decadeAverages, hmain,
      if_neg (by rw [hemp]; exact Bool.false_ne_true)]
    rfl
  · with_unfolding_all rfl

/-- Witness for C7: at the constant-40 series the 1950s bucket reports its
mean and the empty 1960s bucket reports nothing. -/
theorem decade_averages_spec_witness :
    seriesGet 1950 (decadeAverages fortiesEx) =
      some (mean ((fortiesEx.filter (inDecade 1950)).map Prod.snd)) ∧
    seriesGet 1960 (decadeAverages fortiesEx) = none :=
  ⟨(decade_averages_spec fortiesEx 1950 (by decide)).2.1 (by decide),
   (decade_averages_spec fortiesEx 1960 (by decide)).1 (by decide)⟩

/-- Claim C8: the reported standard deviation is the sample standard
deviation: the variance it is the square root of divides the summed
squared deviations from the mean by `N - 1` — multiplying `sampleVar` back
by `N - 1` recovers that sum, and on `[1, 2, 3]` the value is 1 rather
than the population (denominator `N`) value 2/3. -/
theorem std_uses_sample_variance :
    (∀ xs : List ℚ, 2 ≤ xs.length →
      sampleVar xs * ((xs.length : ℚ) - 1) =
        ((xs.map (fun x => (x - mean xs) ^ 2)).sum)) ∧
    sampleVar stdEx = 1 ∧ popVar stdEx = 2 / 3 := by
  refine ⟨?_, ?_, ?_⟩
  · intro xs hlen
    have h2 : (2 : ℚ) ≤ (xs.length : ℚ) := by exact_mod_cast hlen
    have hb : ((xs.length : ℚ) - 1) ≠ 0 := by
      intro h0
      rw [sub_eq_zero] at h0
      linarith
    rw [sampleVar]
    exact div_mul_cancel₀ _ hb
  · with_unfolding_all rfl
  · with_unfolding_all rfl

/-- Witness for C8 at the three-point list. -/
theorem std_uses_sample_variance_witness :
    sampleVar stdEx * ((stdEx.length : ℚ) - 1) =
      ((stdEx.map (fun x => (x - mean stdEx) ^ 2)).sum) :=
  std_uses_sample_variance.1 stdEx (by decide)

/-- Claim C9: when the API honours the requested ascending sort order —
the response rows carry strictly ascending dates — the fetched series is
ordered by date ascending with unique dates, and the rate calculation
preserves ascending order and date-uniqueness over the intersected
domain of an ascending input. -/
theorem series_sorted_unique (rows : List (Date × String)) (a b : Series)
    (hrows : (dates rows).Pairwise (fun x y => dateLtb x y = true))
    (ha : (dates a).Pairwise (fun x y => dateLtb x y = true)) :
    (dates (fetchParse rows)).Pairwise (fun x y => dateLtb x y = true) ∧
    (dates (fetchParse rows)).Nodup ∧
    (dates (calculate_effective_rate a b)).Pairwise
      (fun x y => dateLtb x y = true) ∧
    (dates (calculate_effective_rate a b)).Nodup := by
  have h1 := List.Pairwise.sublist (dates_fetchParse_sublist rows) hrows
  have h2 := List.Pairwise.sublist (dates_rate_sublist a b) ha
  exact ⟨h1, h1.imp dateLtb_ne, h2, h2.imp dateLtb_ne⟩

/-- Witness for C9 at the example response and the example series pair. -/
theorem series_sorted_unique_witness :
    (dates (fetchParse obsEx)).Pairwise (fun x y => dateLtb x y = true) ∧
    (dates (fetchParse obsEx)).Nodup ∧
    (dates (calculate_effective_rate taxEx profitEx)).Pairwise
      (fun x y => dateLtb x y = true) ∧
    (dates (calculate_effective_rate taxEx profitEx)).Nodup :=
  series_sorted_unique obsEx taxEx profitEx (by decide) (by decide)

end CorporateTax
